import Mathlib

/-!
Verification of the usage-example script
src/public/usage-examples/graphics/fill_quad_on_window-1-example.py.

The script is straight-line Python that only calls the external SplashKit
library.  We embed it shallowly: a tiny expression/statement language
(literals, variables, library calls — the only constructs the script uses),
an evaluator that threads a variable environment and records every library
call as an `Event` (function name, argument values, returned value), and an
`Oracle` supplying the values the external library returns (the handles of
opened windows and the result of `window_width`).  All other library calls
return `None` (modelled as `Value.vnone`) or a constructed value
(`quad_from`, the colour constants), exactly as the script relies on.
-/

namespace FillQuadExample

/-- The five SplashKit colour constants the script mentions. -/
inductive ColorName where
  | white
  | black
  | green
  | red
  | blue
deriving DecidableEq

/-- The external-library functions the script calls, one constructor per
Python identifier. -/
inductive FnName where
  | quad_from
  | open_window
  | move_window_to
  | window_width
  | clear_screen
  | fill_quad_on_window
  | refresh_screen
  | delay
  | close_all_windows
  | color_white
  | color_black
  | color_green
  | color_red
  | color_blue
deriving DecidableEq

/-- Runtime values of the embedded script: Python ints, strings, the quad
record built by `quad_from` (its eight coordinates), opaque window handles
(modelled as `Nat`), colour values, and Python `None`. -/
inductive Value where
  | int (n : Int)
  | str (s : String)
  | quad (coords : List Int)
  | window (w : Nat)
  | color (c : ColorName)
  | vnone
deriving DecidableEq

/-- One recorded external-library call: name, evaluated arguments, and the
value the library returned. -/
structure Event where
  fname : FnName
  args : List Value
  ret : Value
deriving DecidableEq

/-- The values the external library chooses: the handle returned by the n-th
`open_window` call and the width reported by `window_width` for a handle.
Both are total functions: every library call returns (without raising). -/
structure Oracle where
  newWindow : Nat → Nat
  winWidth : Nat → Int

/-- Interpreter state: variable environment (latest binding first), number of
windows opened so far, and the chronological trace of library calls. -/
structure St where
  env : List (String × Value)
  winCount : Nat
  trace : List Event

def St.emit (st : St) (e : Event) : St :=
  { st with trace := st.trace ++ [e] }

def St.bindVar (st : St) (n : String) (v : Value) : St :=
  { st with env := (n, v) :: st.env }

/-- Semantics of one external-library call: checks the argument shapes the
library expects, produces the returned value (consulting the oracle where
the return is not determined by the arguments), and records the event.
Ill-typed arguments fail (`none`), modelling a raised Python error. -/
def applyLib (o : Oracle) (f : FnName) (vs : List Value) (st : St) :
    Option (Value × St) :=
  match f, vs with
  | .quad_from, [.int x1, .int y1, .int x2, .int y2,
                 .int x3, .int y3, .int x4, .int y4] =>
    let r := Value.quad [x1, y1, x2, y2, x3, y3, x4, y4]
    some (r, st.emit ⟨f, vs, r⟩)
  | .open_window, [.str _, .int _, .int _] =>
    let r := Value.window (o.newWindow st.winCount)
    some (r, { st.emit ⟨f, vs, r⟩ with winCount := st.winCount + 1 })
  | .move_window_to, [.window _, .int _, .int _] =>
    some (.vnone, st.emit ⟨f, vs, .vnone⟩)
  | .window_width, [.window w] =>
    let r := Value.int (o.winWidth w)
    some (r, st.emit ⟨f, vs, r⟩)
  | .clear_screen, [.color _] =>
    some (.vnone, st.emit ⟨f, vs, .vnone⟩)
  | .fill_quad_on_window, [.window _, .color _, .quad _] =>
    some (.vnone, st.emit ⟨f, vs, .vnone⟩)
  | .refresh_screen, [] =>
    some (.vnone, st.emit ⟨f, vs, .vnone⟩)
  | .delay, [.int _] =>
    some (.vnone, st.emit ⟨f, vs, .vnone⟩)
  | .close_all_windows, [] =>
    some (.vnone, st.emit ⟨f, vs, .vnone⟩)
  | .color_white, [] => some (.color .white, st.emit ⟨f, vs, .color .white⟩)
  | .color_black, [] => some (.color .black, st.emit ⟨f, vs, .color .black⟩)
  | .color_green, [] => some (.color .green, st.emit ⟨f, vs, .color .green⟩)
  | .color_red, [] => some (.color .red, st.emit ⟨f, vs, .color .red⟩)
  | .color_blue, [] => some (.color .blue, st.emit ⟨f, vs, .color .blue⟩)
  | _, _ => none

/-- Expressions of the embedded script: literals, variable references, and
library calls (the only expression forms the source uses). -/
inductive Expr where
  | lit (v : Value)
  | var (name : String)
  | call (fname : FnName) (args : List Expr)

/-- Statements of the embedded script: assignments and bare call statements
(the only statement forms the source uses). -/
inductive Stmt where
  | assign (name : String) (rhs : Expr)
  | exprStmt (e : Expr)

/-- Evaluate a list of argument expressions left to right (Python order),
threading the state, with a given evaluator for single expressions. -/
def evalArgsWith (ev : St → Expr → Option (Value × St)) :
    St → List Expr → Option (List Value × St)
  | st, [] => some ([], st)
  | st, e :: rest =>
    match ev st e with
    | none => none
    | some (v, st1) =>
      match evalArgsWith ev st1 rest with
      | none => none
      | some (vs, st2) => some (v :: vs, st2)

/-- Fuel-indexed expression evaluator.  Each level of call nesting consumes
one unit of fuel; the script nests calls at most two deep, so any fuel ≥ 3
evaluates it fully. -/
def evalExpr (o : Oracle) : Nat → St → Expr → Option (Value × St)
  | 0, _, _ => none
  | Nat.succ fuel, st, e =>
    match e with
    | .lit v => some (v, st)
    | .var n =>
      match st.env.lookup n with
      | some v => some (v, st)
      | none => none
    | .call f args =>
      match evalArgsWith (evalExpr o fuel) st args with
      | none => none
      | some (vs, st1) => applyLib o f vs st1

def runStmt (o : Oracle) (fuel : Nat) (st : St) : Stmt → Option St
  | .assign n rhs =>
    match evalExpr o fuel st rhs with
    | none => none
    | some (v, st1) => some (st1.bindVar n v)
  | .exprStmt e =>
    match evalExpr o fuel st e with
    | none => none
    | some (_, st1) => some st1

def runStmts (o : Oracle) (fuel : Nat) : St → List Stmt → Option St
  | st, [] => some st
  | st, s :: rest =>
    match runStmt o fuel st s with
    | none => none
    | some st1 => runStmts o fuel st1 rest

/-- The script, statement by statement, transliterated from
fill_quad_on_window-1-example.py. -/
def script : List Stmt := [
  .assign "q1" (.call .quad_from
    [.lit (.int 400), .lit (.int 200), .lit (.int 300), .lit (.int 300),
     .lit (.int 300), .lit (.int 0), .lit (.int 200), .lit (.int 200)]),
  .assign "q2" (.call .quad_from
    [.lit (.int 400), .lit (.int 210), .lit (.int 310), .lit (.int 300),
     .lit (.int 600), .lit (.int 300), .lit (.int 400), .lit (.int 390)]),
  .assign "q3" (.call .quad_from
    [.lit (.int 200), .lit (.int 400), .lit (.int 300), .lit (.int 300),
     .lit (.int 300), .lit (.int 600), .lit (.int 400), .lit (.int 400)]),
  .assign "q4" (.call .quad_from
    [.lit (.int 200), .lit (.int 390), .lit (.int 290), .lit (.int 300),
     .lit (.int 0), .lit (.int 300), .lit (.int 200), .lit (.int 210)]),
  .assign "window1" (.call .open_window
    [.lit (.str "Filled Diamond On Window 1"), .lit (.int 600), .lit (.int 600)]),
  .assign "window2" (.call .open_window
    [.lit (.str "Filled Diamond On Window 2"), .lit (.int 600), .lit (.int 600)]),
  .exprStmt (.call .move_window_to [.var "window1", .lit (.int 0), .lit (.int 0)]),
  .exprStmt (.call .move_window_to
    [.var "window2", .call .window_width [.var "window1"], .lit (.int 0)]),
  .exprStmt (.call .clear_screen [.call .color_white []]),
  .exprStmt (.call .fill_quad_on_window
    [.var "window1", .call .color_black [], .var "q1"]),
  .exprStmt (.call .fill_quad_on_window
    [.var "window1", .call .color_green [], .var "q2"]),
  .exprStmt (.call .fill_quad_on_window
    [.var "window2", .call .color_red [], .var "q3"]),
  .exprStmt (.call .fill_quad_on_window
    [.var "window2", .call .color_blue [], .var "q4"]),
  .exprStmt (.call .refresh_screen []),
  .exprStmt (.call .delay [.lit (.int 5000)]),
  .exprStmt (.call .close_all_windows [])
]

def initSt : St := ⟨[], 0, []⟩

/-- Run the whole script (fuel 9 far exceeds the nesting depth of 2). -/
def run (o : Oracle) : Option St :=
  runStmts o 9 initSt script

/-- The chronological sequence of library calls the script makes, for a given
behaviour `o` of the external library (empty only if execution fails). -/
def runTrace (o : Oracle) : List Event :=
  match run o with
  | some st => st.trace
  | none => []

/-- A concrete library behaviour used to instantiate closed statements:
handles 1, 2, … and every window 600 pixels wide. -/
def defaultOracle : Oracle := ⟨fun n => n + 1, fun _ => 600⟩

/-- The trace of the script, written out symbolically in terms of the
oracle: `h1`, `h2` are the handles the library returns for the two
`open_window` calls and `ww` is the width it reports for `h1`.  Proved equal
to `runTrace o` below and used to reason about the trace. -/
def traceModel (o : Oracle) : List Event :=
  let h1 := o.newWindow 0
  let h2 := o.newWindow 1
  let ww := o.winWidth h1
  [⟨.quad_from,
    [.int 400, .int 200, .int 300, .int 300, .int 300, .int 0, .int 200, .int 200],
    .quad [400, 200, 300, 300, 300, 0, 200, 200]⟩,
   ⟨.quad_from,
    [.int 400, .int 210, .int 310, .int 300, .int 600, .int 300, .int 400, .int 390],
    .quad [400, 210, 310, 300, 600, 300, 400, 390]⟩,
   ⟨.quad_from,
    [.int 200, .int 400, .int 300, .int 300, .int 300, .int 600, .int 400, .int 400],
    .quad [200, 400, 300, 300, 300, 600, 400, 400]⟩,
   ⟨.quad_from,
    [.int 200, .int 390, .int 290, .int 300, .int 0, .int 300, .int 200, .int 210],
    .quad [200, 390, 290, 300, 0, 300, 200, 210]⟩,
   ⟨.open_window,
    [.str "Filled Diamond On Window 1", .int 600, .int 600], .window h1⟩,
   ⟨.open_window,
    [.str "Filled Diamond On Window 2", .int 600, .int 600], .window h2⟩,
   ⟨.move_window_to, [.window h1, .int 0, .int 0], .vnone⟩,
   ⟨.window_width, [.window h1], .int ww⟩,
   ⟨.move_window_to, [.window h2, .int ww, .int 0], .vnone⟩,
   ⟨.color_white, [], .color .white⟩,
   ⟨.clear_screen, [.color .white], .vnone⟩,
   ⟨.color_black, [], .color .black⟩,
   ⟨.fill_quad_on_window,
    [.window h1, .color .black, .quad [400, 200, 300, 300, 300, 0, 200, 200]], .vnone⟩,
   ⟨.color_green, [], .color .green⟩,
   ⟨.fill_quad_on_window,
    [.window h1, .color .green, .quad [400, 210, 310, 300, 600, 300, 400, 390]], .vnone⟩,
   ⟨.color_red, [], .color .red⟩,
   ⟨.fill_quad_on_window,
    [.window h2, .color .red, .quad [200, 400, 300, 300, 300, 600, 400, 400]], .vnone⟩,
   ⟨.color_blue, [], .color .blue⟩,
   ⟨.fill_quad_on_window,
    [.window h2, .color .blue, .quad [200, 390, 290, 300, 0, 300, 200, 210]], .vnone⟩,
   ⟨.refresh_screen, [], .vnone⟩,
   ⟨.delay, [.int 5000], .vnone⟩,
   ⟨.close_all_windows, [], .vnone⟩]

/-- The function names of a trace, in call order. -/
def traceNames (tr : List Event) : List FnName :=
  tr.map Event.fname

/-- The library functions realising the eight steps listed by the spec. -/
def stepNames : List FnName :=
  [.quad_from, .open_window, .move_window_to, .clear_screen,
   .fill_quad_on_window, .refresh_screen, .delay, .close_all_windows]

/-- The calls of a trace restricted to the eight step functions, in order. -/
def stepCalls (tr : List Event) : List FnName :=
  (traceNames tr).filter (fun n => stepNames.contains n)

/-- The argument tuples of the `quad_from` calls of a trace, in order. -/
def quadEventArgs (tr : List Event) : List (List Value) :=
  (tr.filter (fun e => e.fname == FnName.quad_from)).map Event.args

/-- Group a flat list of numeric arguments into (x, y) coordinate pairs. -/
def pairsOf : List Value → List (Int × Int)
  | .int a :: .int b :: rest => (a, b) :: pairsOf rest
  | _ => []

/-- All coordinate pairs passed to `quad_from` across a trace. -/
def quadCoordPairs (tr : List Event) : List (Int × Int) :=
  (quadEventArgs tr).foldr (fun a acc => pairsOf a ++ acc) []

/-- The colour constants fetched during a trace, in call order: exactly the
calls that return a colour value (the `color_*` constant functions). -/
def colorConstCalls (tr : List Event) : List ColorName :=
  tr.filterMap (fun e =>
    match e.ret with
    | .color c => some c
    | _ => none)

/-- The (window, x, y) arguments of the `move_window_to` calls of a trace. -/
def moveCalls (tr : List Event) : List (Nat × Int × Int) :=
  tr.filterMap (fun e =>
    if e.fname == FnName.move_window_to then
      match e.args with
      | [.window w, .int x, .int y] => some (w, x, y)
      | _ => none
    else none)

/-- The window handle each `fill_quad_on_window` call of a trace targets. -/
def fillWindows (tr : List Event) : List Nat :=
  tr.filterMap (fun e =>
    if e.fname == FnName.fill_quad_on_window then
      match e.args with
      | .window w :: _ => some w
      | _ => none
    else none)

/-- The drawing-phase calls of a trace: clears, fills and refreshes. -/
def drawCalls (tr : List Event) : List FnName :=
  (traceNames tr).filter
    (fun n => ([.clear_screen, .fill_quad_on_window, .refresh_screen] : List FnName).contains n)

/-- The window handles appearing among the arguments of an event. -/
def windowArgs (e : Event) : List Nat :=
  e.args.filterMap (fun v =>
    match v with
    | .window w => some w
    | _ => none)

/-- Is this a call that consumes a window handle? -/
def winConsuming (e : Event) : Bool :=
  ([.move_window_to, .window_width, .fill_quad_on_window] : List FnName).contains e.fname

/-- The handles an event makes available: the return of an `open_window`. -/
def openedWindows (e : Event) : List Nat :=
  if e.fname == FnName.open_window then
    match e.ret with
    | .window w => [w]
    | _ => []
  else []

/-- Every window-consuming call in the trace receives only handles opened by
an earlier `open_window` (given the handles already in `opened`). -/
def handlesOpenedFirst : List Nat → List Event → Prop
  | _, [] => True
  | opened, e :: rest =>
    (winConsuming e = true → ∀ w ∈ windowArgs e, w ∈ opened) ∧
    handlesOpenedFirst (opened ++ openedWindows e) rest

/-- Is the expression itself a library call? -/
def isCall : Expr → Bool
  | .call _ _ => true
  | _ => false

/-- Does the top-level call of the statement take some argument that is
itself computed by another library call? -/
def hasNestedCallArg : Stmt → Bool
  | .assign _ (.call _ args) => args.any isCall
  | .exprStmt (.call _ args) => args.any isCall
  | _ => false

/-- A literal or a variable reference: an argument involving no computation. -/
def simpleArg : Expr → Bool
  | .lit _ => true
  | .var _ => true
  | .call _ _ => false

/-- A library call all of whose arguments are literals or variables. -/
def flatLibCall : Expr → Bool
  | .call _ args => args.all simpleArg
  | _ => false

/-- The statement is a single top-level library call (possibly assigned to a
variable) whose arguments are literals, variables, or library calls with
only literal/variable arguments — no arithmetic, no deeper nesting. -/
def stmtIsDirectLibCall : Stmt → Bool
  | .assign _ (.call _ args) => args.all (fun a => simpleArg a || flatLibCall a)
  | .exprStmt (.call _ args) => args.all (fun a => simpleArg a || flatLibCall a)
  | _ => false

/-- Running the script produces exactly the symbolic trace `traceModel`,
whatever values the external library returns. -/
theorem runTrace_eq_traceModel (o : Oracle) : runTrace o = traceModel o := by
  simp [runTrace, run, runStmts, runStmt, evalExpr, evalArgsWith, applyLib,
    script, initSt, St.emit, St.bindVar, List.lookup, traceModel]

/-- Running the script succeeds: no statement fails to evaluate. -/
theorem run_eq_some (o : Oracle) : (run o).isSome = true := by
  simp [run, runStmts, runStmt, evalExpr, evalArgsWith, applyLib,
    script, initSt, St.emit, St.bindVar, List.lookup]

/-- Claim C1: for every behaviour of the external library, the calls the
script makes to the eight step functions occur exactly in the listed order:
quad construction (four calls), two window creations, window repositioning
(two calls), one screen clear, four fills, one refresh, one delay, and the
window teardown — no step omitted, repeated out of place, or reordered. -/
theorem eight_step_order (o : Oracle) :
    stepCalls (runTrace o) =
      [.quad_from, .quad_from, .quad_from, .quad_from,
       .open_window, .open_window,
       .move_window_to, .move_window_to,
       .clear_screen,
       .fill_quad_on_window, .fill_quad_on_window,
       .fill_quad_on_window, .fill_quad_on_window,
       .refresh_screen, .delay, .close_all_windows] := by
  rw [runTrace_eq_traceModel]; rfl

/-- Claim C2, counterexample: the coordinate data passed to `quad_from`
consists of sixteen coordinate pairs, not eight as claimed. -/
theorem quad_coord_pairs_not_eight :
    (quadCoordPairs (runTrace defaultOracle)).length = 16 ∧
      ¬ (quadCoordPairs (runTrace defaultOracle)).length = 8 := by
  rw [runTrace_eq_traceModel]; decide

/-- Claim C2, amended: the four quads are passed to `quad_from` as flat
numeric tuples of eight coordinate values each, i.e. sixteen coordinate
pairs in total (four pairs per quad). -/
theorem quad_coord_pairs_sixteen (o : Oracle) :
    quadEventArgs (runTrace o) =
      [[.int 400, .int 200, .int 300, .int 300, .int 300, .int 0, .int 200, .int 200],
       [.int 400, .int 210, .int 310, .int 300, .int 600, .int 300, .int 400, .int 390],
       [.int 200, .int 400, .int 300, .int 300, .int 300, .int 600, .int 400, .int 400],
       [.int 200, .int 390, .int 290, .int 300, .int 0, .int 300, .int 200, .int 210]] ∧
    quadCoordPairs (runTrace o) =
      [(400, 200), (300, 300), (300, 0), (200, 200),
       (400, 210), (310, 300), (600, 300), (400, 390),
       (200, 400), (300, 300), (300, 600), (400, 400),
       (200, 390), (290, 300), (0, 300), (200, 210)] := by
  rw [runTrace_eq_traceModel]; exact ⟨rfl, rfl⟩

/-- Claim C3, counterexample: the script fetches five distinct named colour
constants, not four as claimed. -/
theorem color_constants_not_four :
    (colorConstCalls (runTrace defaultOracle)).dedup.length = 5 ∧
      ¬ (colorConstCalls (runTrace defaultOracle)).dedup.length = 4 := by
  rw [runTrace_eq_traceModel]; decide

/-- Claim C3, amended: the script uses exactly five named colour constants
across all of its library calls: white, black, green, red and blue. -/
theorem color_constants_five (o : Oracle) :
    (colorConstCalls (runTrace o)).dedup =
      [.white, .black, .green, .red, .blue] := by
  rw [runTrace_eq_traceModel]; rfl

/-- Claim C4: in every execution, `close_all_windows` is called exactly once
and is the last library call the script makes, while `open_window` is called
twice; hence both window creations precede the teardown and no window
operation follows it. -/
theorem close_all_windows_last (o : Oracle) :
    (traceNames (runTrace o)).getLast? = some .close_all_windows ∧
    (traceNames (runTrace o)).count .close_all_windows = 1 ∧
    (traceNames (runTrace o)).count .open_window = 2 := by
  rw [runTrace_eq_traceModel]; exact ⟨rfl, rfl, rfl⟩

/-- Claim C5: whatever (total) values the external library returns, the
script runs to completion — evaluation succeeds and performs its fixed,
finite sequence of twenty-two library calls. -/
theorem script_runs_to_completion (o : Oracle) :
    (run o).isSome = true ∧ (runTrace o).length = 22 := by
  refine ⟨run_eq_some o, ?_⟩
  rw [runTrace_eq_traceModel]; rfl

/-- Claim C6: the script is deterministic as a two-run property — if in two
runs the external library returns the same two window handles and the same
`window_width` value, the runs issue the identical sequence of library calls
with identical arguments. -/
theorem script_deterministic (o1 o2 : Oracle)
    (hw1 : o1.newWindow 0 = o2.newWindow 0)
    (hw2 : o1.newWindow 1 = o2.newWindow 1)
    (hww : o1.winWidth (o1.newWindow 0) = o2.winWidth (o2.newWindow 0)) :
    runTrace o1 = runTrace o2 := by
  rw [runTrace_eq_traceModel, runTrace_eq_traceModel]
  simp only [traceModel]
  rw [hww, hw1, hw2]

/-- Claim C6, witness: the determinism theorem applied at two concrete
identical library behaviours. -/
theorem script_deterministic_witness :
    runTrace defaultOracle = runTrace defaultOracle :=
  script_deterministic defaultOracle defaultOracle rfl rfl rfl

/-- Claim C7, counterexample: the window-repositioning statement
`move_window_to(window2, window_width(window1), 0)` (statement index 7) has
an argument computed by another library call, so it is not the case that
every statement of the script is free of library-call arguments. -/
theorem step_args_contain_library_calls :
    hasNestedCallArg (script.getD 7 (.exprStmt (.lit .vnone))) = true ∧
      ¬ (∀ s ∈ script, hasNestedCallArg s = false) := by decide

/-- Claim C7, amended: every statement of the script is a single top-level
library call (possibly assigned to a variable) with no intermediate
computation authored by this repository — each argument is a literal, a
variable, or itself a direct library call with only literal or variable
arguments; six of the sixteen statements do pass the result of another
library call (window_width, or a colour constant) as an argument. -/
theorem steps_direct_library_calls :
    (∀ s ∈ script, stmtIsDirectLibCall s = true) ∧
    (script.filter hasNestedCallArg).length = 6 := by decide

/-- Claim C8: the two `move_window_to` calls place the first window at
(0, 0) and the second at y = 0 with x equal to the width the library reports
for the first window — side-by-side placement. -/
theorem windows_side_by_side (o : Oracle) :
    moveCalls (runTrace o) =
      [(o.newWindow 0, 0, 0),
       (o.newWindow 1, o.winWidth (o.newWindow 0), 0)] := by
  rw [runTrace_eq_traceModel]; rfl

/-- Claim C9: every window handle passed to `move_window_to`,
`window_width` or `fill_quad_on_window` was returned by an earlier
`open_window` call of the same run; no call receives an unopened or
invented handle. -/
theorem window_handles_opened_first (o : Oracle) :
    handlesOpenedFirst [] (runTrace o) := by
  rw [runTrace_eq_traceModel]
  simp [handlesOpenedFirst, winConsuming, windowArgs, openedWindows, traceModel]

/-- Claim C10: `clear_screen` and `refresh_screen` are each called exactly
once, the four `fill_quad_on_window` calls all lie between them, and the
fills target the first opened window twice and then the second twice. -/
theorem draw_phase_structure (o : Oracle) :
    drawCalls (runTrace o) =
      [.clear_screen, .fill_quad_on_window, .fill_quad_on_window,
       .fill_quad_on_window, .fill_quad_on_window, .refresh_screen] ∧
    fillWindows (runTrace o) =
      [o.newWindow 0, o.newWindow 0, o.newWindow 1, o.newWindow 1] := by
  rw [runTrace_eq_traceModel]; exact ⟨rfl, rfl⟩

end FillQuadExample
